import Mathlib

/-!
Shallow embedding of the AirStatus monitor (src/main.py) and verification of
its specification claims.

The program watches BLE advertisements for AirPods, keeps a 10-second window
of qualifying observations, picks the strongest by RSSI each tick, decodes the
Apple proprietary manufacturer payload (hex-encoded, 54 characters) into a
battery/charging status record, and emits one JSON line per tick.  The
embedding below translates the pure logic of `main.py` directly: hex payloads
become `List Char`, the mutable `recent` list becomes explicit list state,
`time_ns()` becomes explicit time parameters, and Python exceptions become
`Option`/`none`.
-/

namespace AirStatus

/-- Configuration constant `MIN_RSSI` of main.py (default -90). -/
def MIN_RSSI : Int := -90

/-- Configuration constant `AIRPODS_MANUFACTURER` of main.py (0x004C, Apple). -/
def AIRPODS_MANUFACTURER : Nat := 76

/-- Configuration constant `AIRPODS_DATA_HEX_LEN` of main.py (default 54). -/
def AIRPODS_DATA_HEX_LEN : Nat := 54

/-- Configuration constant `RECENT_BEACONS_MAX_T_NS` of main.py: the window
horizon, 10 seconds in nanoseconds. -/
def RECENT_BEACONS_MAX_T_NS : Int := 10000000000

/-- Python `int(c, 16)` on a single character taken from a byte string:
defined exactly on ASCII hex digits (both cases), raising (here: `none`)
otherwise. -/
def hexVal? (c : Char) : Option Nat :=
  if 48 ≤ c.toNat ∧ c.toNat ≤ 57 then some (c.toNat - 48)
  else if 97 ≤ c.toNat ∧ c.toNat ≤ 102 then some (c.toNat - 97 + 10)
  else if 65 ≤ c.toNat ∧ c.toNat ≤ 70 then some (c.toNat - 65 + 10)
  else none

/-- A bleak device as the program uses it: an address and an optional RSSI. -/
structure Device where
  address : String
  rssi : Option Int
deriving DecidableEq, Repr

/-- An element of the global `recent` list of main.py:
`{"time": ..., "device": ..., "mfg_hex": ..., "name": ...}`. -/
structure Entry where
  time : Int
  device : Device
  mfg_hex : Option (List Char)
  name : String
deriving DecidableEq, Repr

/-- Python `x.rssi or -999`: `None` is falsy, and so is the integer 0, so an
absent RSSI and a zero RSSI both yield the sentinel -999. -/
def rssiKey : Option Int → Int
  | none => -999
  | some r => if r = 0 then -999 else r

/-- Comparison key of a window entry. -/
def keyOf (e : Entry) : Int := rssiKey e.device.rssi

/-- One step of the strongest-so-far accumulation of the scan loops in
`keep_best` / `pick_strongest`: replace the current strongest only on a
strictly greater key. -/
def better (s : Option Entry) (e : Entry) : Option Entry :=
  match s with
  | none => some e
  | some b => if keyOf e > keyOf b then some e else some b

/-- The shared evict-and-scan loop of `keep_best` and `pick_strongest`:
walks the list, popping entries older than the horizon, and tracks the
strongest surviving entry.  Returns the surviving list and the strongest. -/
def scanLoop (now : Int) : List Entry → Option Entry → List Entry × Option Entry
  | [], s => ([], s)
  | e :: rest, s =>
    if now - e.time > RECENT_BEACONS_MAX_T_NS then scanLoop now rest s
    else
      let p := scanLoop now rest (better s e)
      (e :: p.1, p.2)

/-- `pick_strongest()` of main.py: evict-and-scan over the current `recent`
list at time `now`; returns the updated list and the strongest entry. -/
def pick_strongest (now : Int) (recent : List Entry) : List Entry × Option Entry :=
  scanLoop now recent none

/-- `keep_best(device, mfg_hex, name)` of main.py.  `tA` is the `time_ns()`
of the append, `tN` the `time_ns()` taken just after (`now`).  Appends the
new entry, evicts and scans, and — when the strongest entry carries the same
device address as the one just inserted — returns a fresh record stamped
`now` instead of the stored one.  The stored list is never touched by that
refresh. -/
def keep_best (d : Device) (mfg : Option (List Char)) (nm : String)
    (tA tN : Int) (recent : List Entry) : List Entry × Option Entry :=
  match scanLoop tN (recent ++ [⟨tA, d, mfg, nm⟩]) none with
  | (l, some s) =>
    if s.device.address = d.address then (l, some ⟨tN, d, mfg, nm⟩)
    else (l, some s)
  | (l, none) => (l, none)

/-- The selection `keep_best` returns: the strongest entry, except that a
strongest entry whose device address equals the just-inserted device's
address is replaced by a fresh record stamped `now`. -/
def refreshReturn (d : Device) (mfg : Option (List Char)) (nm : String)
    (tN : Int) : Option Entry → Option Entry
  | none => none
  | some s =>
    if s.device.address = d.address then some ⟨tN, d, mfg, nm⟩
    else some s

/-- The decoded status record produced by `decode_airpods` (the `dict` it
returns). -/
structure AirpodsStatus where
  status : Nat
  charge_left : Int
  charge_right : Int
  charge_case : Int
  charging_left : Bool
  charging_right : Bool
  charging_case : Bool
  model : String
  date : String
  raw : List Char
deriving DecidableEq, Repr

/-- The model lookup of `decode_airpods`, keyed on the character at offset 7. -/
def modelOf (c7 : Char) : String :=
  if c7 = 'e' then "AirPodsPro"
  else if c7 = '3' then "AirPods3"
  else if c7 = 'f' then "AirPods2"
  else if c7 = '2' then "AirPods1"
  else if c7 = 'a' then "AirPodsMax"
  else "unknown"

/-- `is_flipped(raw_hex)` of main.py: bit 1 of the hex digit at offset 10 is
zero.  `none` models an index or parse error. -/
def is_flipped (raw : List Char) : Option Bool :=
  (raw[10]?).bind fun c => (hexVal? c).map fun v => v &&& 2 == 0

/-- The percentage transform applied to a nibble value by `pct_at`:
`100 if v == 10 else (v * 10 + 5 if v <= 10 else -1)`. -/
def pctFun (v : Nat) : Int :=
  if v = 10 then 100 else if v ≤ 10 then (v : Int) * 10 + 5 else -1

/-- `pct_at(idx)` of `decode_airpods`: parse the hex digit at `idx` and apply
the percentage transform. -/
def pct_at (raw : List Char) (idx : Nat) : Option Int :=
  (raw[idx]?).bind fun c => (hexVal? c).map fun v => pctFun v

/-- `decode_airpods(raw_hex)` of main.py.  `date` stands for the
`datetime.now()` timestamp string.  `none` models a Python exception (index
out of range or non-hex digit); the caller guarantees length 54 and the
payload always comes from `hexlify`, so on real inputs it is total. -/
def decode_airpods (raw : List Char) (date : String) : Option AirpodsStatus :=
  (is_flipped raw).bind fun flip =>
  (raw[7]?).bind fun c7 =>
  (pct_at raw (if flip then 12 else 13)).bind fun left =>
  (pct_at raw (if flip then 13 else 12)).bind fun right =>
  (pct_at raw 15).bind fun caseC =>
  (raw[14]?).bind fun c14 =>
  (hexVal? c14).map fun chg =>
  { status := 1
    charge_left := left
    charge_right := right
    charge_case := caseC
    charging_left := chg &&& (if flip then 2 else 1) != 0
    charging_right := chg &&& (if flip then 1 else 2) != 0
    charging_case := chg &&& 4 != 0
    model := modelOf c7
    date := date
    raw := raw }

/-- Python `a or b` on optional strings: `None` and the empty string are
falsy. -/
def orElseStr (a : Option String) (b : String) : String :=
  match a with
  | none => b
  | some s => if s = "" then b else s

/-- Lowercase the characters of a string, as `str.lower()` does on the ASCII
names and hints the program handles. -/
def toLowerStr (s : String) : List Char := s.data.map Char.toLower

/-- Python `needle in hay` on strings: `needle` occurs as a contiguous
substring of `hay` (always true for the empty needle). -/
def containsSub (hay needle : List Char) : Bool :=
  (List.range (hay.length + 1)).any fun i => needle.isPrefixOf (hay.drop i)

/-- Lowercase hex digit for a nibble, as `binascii.hexlify` emits. -/
def hexChar (v : Nat) : Char :=
  if v < 10 then Char.ofNat (48 + v) else Char.ofNat (87 + v)

/-- `binascii.hexlify` on a byte sequence: two lowercase hex characters per
byte. -/
def hexlify (bs : List Nat) : List Char :=
  bs.foldr (fun b acc => hexChar (b % 256 / 16) :: hexChar (b % 16) :: acc) []

/-- Lookup in the manufacturer-data mapping (Python `id in mfg` / `mfg[id]`),
modelled as an association list. -/
def lookupMfg (vid : Nat) : List (Nat × List Nat) → Option (List Nat)
  | [] => none
  | (k, v) :: rest => if k = vid then some v else lookupMfg vid rest

/-- A raw advertisement event as `on_adv` receives it: the device fields and
the advertisement data fields the callback reads. -/
structure AdvEvent where
  address : String
  localName : Option String
  deviceName : Option String
  rssi : Option Int
  mfg : List (Nat × List Nat)
deriving DecidableEq, Repr

/-- The resolved advertised name: `adv_data.local_name or device.name or ""`. -/
def resolvedName (ev : AdvEvent) : String :=
  orElseStr ev.localName (orElseStr ev.deviceName "")

/-- The `on_adv` callback of `run_async` (the same filter logic as the
discover path of `poll_once_with_discover`): decide qualification and produce
the `keep_best` arguments, or `none` when the event is dropped.  `hints` is
the configured `NAME_HINTS` list and `minRssi` the configured `MIN_RSSI`. -/
def on_adv (minRssi : Int) (hints : List String) (ev : AdvEvent) :
    Option (Device × Option (List Char) × String) :=
  let name := resolvedName ev
  let hasApple := (lookupMfg AIRPODS_MANUFACTURER ev.mfg).isSome
  let matchesName :=
    if name ≠ "" then hints.any fun h => containsSub (toLowerStr name) (toLowerStr h)
    else false
  if ¬hasApple ∧ ¬matchesName then none
  else
    match ev.rssi with
    | none => none
    | some r =>
      if r < minRssi then none
      else some (⟨ev.address, ev.rssi⟩, (lookupMfg AIRPODS_MANUFACTURER ev.mfg).map hexlify, name)

/-- One JSON line as emitted per tick by `run_async`: the not-found object,
the degraded status-0 object, or the full status-1 record. -/
inductive TickPayload where
  | notFound (model : String)
  | degraded (model note : String) (rssi : Option Int) (name : String) (date : String)
  | full (st : AirpodsStatus)
deriving DecidableEq, Repr

/-- The per-tick output selection of `run_async` given the strongest window
entry: not-found when the window is empty, the decoder result when a payload
of the expected length is present, a degraded object otherwise.  `none`
models a Python exception inside `decode_airpods`. -/
def tick_payload (strongest : Option Entry) (date : String) : Option TickPayload :=
  match strongest with
  | none => some (.notFound "AirPods not found")
  | some s =>
    match s.mfg_hex with
    | some raw =>
      if raw.length = AIRPODS_DATA_HEX_LEN then (decode_airpods raw date).map .full
      else
        some (.degraded (if s.name ≠ "" then "AirPods detected" else "Apple device detected")
          "Manufacturer frame present but unsupported length" s.device.rssi s.name date)
    | none =>
      some (.degraded (if s.name ≠ "" then "AirPods detected" else "Apple device detected")
        "Matched by name only" s.device.rssi s.name date)

/-- Outcome of one attempted `scanner.start()` call: success, a
`BleakDBusError` whose text contains "InProgress", or any other error. -/
inductive StartResult where
  | ok
  | inProgress
  | fatal
deriving DecidableEq, Repr

/-- The start-retry loop `for attempt in range(6)` of `run_async`.  `res i`
is the outcome the scanner would give the i-th attempt; `usePoll` is the
`use_poll` flag; `some b` means the loop finished with `use_poll = b`,
`none` means a non-InProgress error was re-raised. -/
def startGo (res : Nat → StartResult) (usePoll : Bool) (attempt : Nat) :
    Nat → Option Bool
  | 0 => some usePoll
  | r + 1 =>
    match res attempt with
    | .ok => some usePoll
    | .fatal => none
    | .inProgress => startGo res (if attempt = 5 then true else usePoll) (attempt + 1) r

/-- The whole start phase: six attempts beginning with `use_poll = False`. -/
def startPhase (res : Nat → StartResult) : Option Bool :=
  startGo res false 0 6

/-- Outcome of the `discover(timeout=3.0)` sweep in
`poll_once_with_discover`: a device list, a `BleakDBusError` containing
"InProgress", or any other error (re-raised). -/
inductive SweepOutcome where
  | events (evs : List AdvEvent)
  | inProgress
  | fatal

/-- The loop body of the discover path of `poll_once_with_discover`: run
every discovered event through the filter (the same qualification logic as
`on_adv`) and insert the qualifying ones with `keep_best`. -/
def sweep_filtered (minRssi : Int) (hints : List String) (evs : List AdvEvent)
    (now : Int) (recent : List Entry) : List Entry :=
  evs.foldl (fun r ev =>
    match on_adv minRssi hints ev with
    | some (d, mfg, nm) => (keep_best d mfg nm now now r).1
    | none => r) recent

/-- `poll_once_with_discover()` of main.py: on "InProgress" it backs off and
returns with the window untouched; otherwise it runs every discovered device
through the filter and `keep_best`.  `none` models a re-raised error. -/
def poll_once_with_discover (minRssi : Int) (hints : List String)
    (out : SweepOutcome) (now : Int) (recent : List Entry) : Option (List Entry) :=
  match out with
  | .fatal => none
  | .inProgress => some recent
  | .events evs => some (sweep_filtered minRssi hints evs now recent)

/-- The emission tail of every tick: read the strongest window entry and
emit exactly one payload.  Returns the updated window and the payload;
`none` models a propagated decode exception. -/
def emit_step (recent : List Entry) (now : Int) (date : String) :
    Option (List Entry × TickPayload) :=
  match tick_payload (pick_strongest now recent).2 date with
  | none => none
  | some pl => some ((pick_strongest now recent).1, pl)

/-- The body of the `while True` tick loop of `run_async`: when `usePoll` is
set the discovery sweep runs first, then the strongest window entry is read
and exactly one payload is emitted. -/
def tick_step (minRssi : Int) (hints : List String) (usePoll : Bool)
    (sweep : SweepOutcome) (recent : List Entry) (now : Int) (date : String) :
    Option (List Entry × TickPayload) :=
  match (if usePoll then poll_once_with_discover minRssi hints sweep now recent
         else some recent) with
  | none => none
  | some r1 => emit_step r1 now date

/-- Bits 0 and 1 of a nibble exchanged, bits 2 and 3 kept: the transformation
of the charging nibble described by the flip-symmetry claim. -/
def swapBits01 (v : Nat) : Nat :=
  (v &&& 12) + (if v.testBit 0 then 2 else 0) + (if v.testBit 1 then 1 else 0)

/-- The payload transformation of the flip-symmetry claim: toggle bit 1 of
the hex digit at offset 10, exchange the characters at the two left/right
percentage offsets 12 and 13, and exchange bits 0 and 1 of the charging
nibble at offset 14. -/
def toggleSwapPayload (raw : List Char) : List Char :=
  let v10 := ((raw[10]?).bind hexVal?).getD 0
  let v14 := ((raw[14]?).bind hexVal?).getD 0
  let cL := (raw[12]?).getD '0'
  let cR := (raw[13]?).getD '0'
  (((raw.set 10 (hexChar (v10 ^^^ 2))).set 12 cR).set 13 cL).set 14
    (hexChar (swapBits01 v14))

/-! ## Window lemmas -/

/-- The entries a scan at time `now` keeps: age at most the horizon. -/
def survives (now : Int) (e : Entry) : Bool :=
  !decide (now - e.time > RECENT_BEACONS_MAX_T_NS)

lemma scanLoop_fst (now : Int) (l : List Entry) (s : Option Entry) :
    (scanLoop now l s).1 = l.filter (survives now) := by
  induction l generalizing s with
  | nil => rfl
  | cons e rest ih =>
    by_cases h : now - e.time > RECENT_BEACONS_MAX_T_NS
    · simp [scanLoop, h, List.filter_cons, survives, ih]
    · simp [scanLoop, h, List.filter_cons, survives, ih]

lemma scanLoop_snd (now : Int) (l : List Entry) (s : Option Entry) :
    (scanLoop now l s).2 = (l.filter (survives now)).foldl better s := by
  induction l generalizing s with
  | nil => rfl
  | cons e rest ih =>
    by_cases h : now - e.time > RECENT_BEACONS_MAX_T_NS
    · simp [scanLoop, h, List.filter_cons, survives, ih]
    · simp [scanLoop, h, List.filter_cons, survives, ih]

lemma foldl_better_some (l : List Entry) (b : Entry) :
    ∃ m, l.foldl better (some b) = some m ∧
      keyOf b ≤ keyOf m ∧ (∀ e ∈ l, keyOf e ≤ keyOf m) ∧
      (m = b ∨ ∃ l1 l2, l = l1 ++ m :: l2 ∧ keyOf b < keyOf m ∧
        ∀ e ∈ l1, keyOf e < keyOf m) := by
  induction l generalizing b with
  | nil => exact ⟨b, rfl, le_refl _, by simp, Or.inl rfl⟩
  | cons e rest ih =>
    by_cases h : keyOf e > keyOf b
    · obtain ⟨m, hm, hbm, hall, hpos⟩ := ih e
      refine ⟨m, ?_, le_trans (le_of_lt h) hbm, ?_, ?_⟩
      · simpa [better, h] using hm
      · intro x hx
        rcases List.mem_cons.mp hx with rfl | hx
        · exact hbm
        · exact hall x hx
      · rcases hpos with rfl | ⟨l1, l2, rfl, hlt, hl1⟩
        · exact Or.inr ⟨[], rest, rfl, h, by simp⟩
        · refine Or.inr ⟨e :: l1, l2, rfl, lt_trans h hlt, ?_⟩
          intro x hx
          rcases List.mem_cons.mp hx with rfl | hx
          · exact hlt
          · exact hl1 x hx
    · obtain ⟨m, hm, hbm, hall, hpos⟩ := ih b
      refine ⟨m, ?_, hbm, ?_, ?_⟩
      · simpa [better, h] using hm
      · intro x hx
        rcases List.mem_cons.mp hx with rfl | hx
        · exact le_trans (le_of_not_lt h) hbm
        · exact hall x hx
      · rcases hpos with rfl | ⟨l1, l2, heq, hlt, hl1⟩
        · exact Or.inl rfl
        · refine Or.inr ⟨e :: l1, l2, by rw [heq]; rfl, hlt, ?_⟩
          intro x hx
          rcases List.mem_cons.mp hx with rfl | hx
          · exact lt_of_le_of_lt (le_of_not_lt h) hlt
          · exact hl1 x hx

lemma foldl_better_none_spec (l : List Entry) :
    (l.foldl better none = none ↔ l = []) ∧
    ∀ m, l.foldl better none = some m →
      (∀ e ∈ l, keyOf e ≤ keyOf m) ∧
      ∃ l1 l2, l = l1 ++ m :: l2 ∧ ∀ e ∈ l1, keyOf e < keyOf m := by
  cases l with
  | nil => simp
  | cons e rest =>
    obtain ⟨m, hm, hbm, hall, hpos⟩ := foldl_better_some rest e
    have hfold : (e :: rest).foldl better none = some m := by
      simpa [List.foldl_cons, better] using hm
    constructor
    · simp [hfold]
    · intro m' hm'
      rw [hfold] at hm'
      injection hm' with hm'
      subst hm'
      constructor
      · intro x hx
        rcases List.mem_cons.mp hx with rfl | hx
        · exact hbm
        · exact hall x hx
      · rcases hpos with rfl | ⟨l1, l2, rfl, hlt, hl1⟩
        · exact ⟨[], rest, rfl, by simp⟩
        · refine ⟨e :: l1, l2, rfl, ?_⟩
          intro x hx
          rcases List.mem_cons.mp hx with rfl | hx
          · exact hlt
          · exact hl1 x hx

/-! ## Decoder lemmas -/

lemma hexVal?_lt_sixteen {c : Char} {v : Nat} (h : hexVal? c = some v) : v < 16 := by
  unfold hexVal? at h
  split_ifs at h with h1 h2 h3
  · injection h with hv; omega
  · injection h with hv; omega
  · injection h with hv; omega

lemma hex_at (raw : List Char) (h54 : raw.length = 54)
    (hhex : ∀ c ∈ raw, (hexVal? c).isSome) (i : Nat) (hi : i < 54) :
    ∃ c v, raw[i]? = some c ∧ hexVal? c = some v := by
  have hlt : i < raw.length := by omega
  obtain ⟨v, hv⟩ := Option.isSome_iff_exists.mp (hhex raw[i] (List.getElem_mem hlt))
  exact ⟨raw[i], v, List.getElem?_eq_getElem hlt, hv⟩

lemma decode_airpods_eq (raw : List Char) (date : String)
    {c7 c10 c12 c13 c14 c15 : Char} {v10 v12 v13 v14 v15 : Nat}
    (h7 : raw[7]? = some c7)
    (h10 : raw[10]? = some c10) (hv10 : hexVal? c10 = some v10)
    (h12 : raw[12]? = some c12) (hv12 : hexVal? c12 = some v12)
    (h13 : raw[13]? = some c13) (hv13 : hexVal? c13 = some v13)
    (h14 : raw[14]? = some c14) (hv14 : hexVal? c14 = some v14)
    (h15 : raw[15]? = some c15) (hv15 : hexVal? c15 = some v15) :
    decode_airpods raw date = some
      { status := 1
        charge_left := pctFun (if v10 &&& 2 == 0 then v12 else v13)
        charge_right := pctFun (if v10 &&& 2 == 0 then v13 else v12)
        charge_case := pctFun v15
        charging_left := v14 &&& (if v10 &&& 2 == 0 then 2 else 1) != 0
        charging_right := v14 &&& (if v10 &&& 2 == 0 then 1 else 2) != 0
        charging_case := v14 &&& 4 != 0
        model := modelOf c7
        date := date
        raw := raw } := by
  unfold decode_airpods is_flipped pct_at
  rw [h10, h7, h14, h15]
  cases hflip : (v10 &&& 2 == 0) <;>
    simp [hv10, hv14, hv15, hflip, h12, h13, hv12, hv13]

lemma is_flipped_eq (raw : List Char) {c10 : Char} {v10 : Nat}
    (h10 : raw[10]? = some c10) (hv10 : hexVal? c10 = some v10) :
    is_flipped raw = some (v10 &&& 2 == 0) := by
  unfold is_flipped
  rw [h10]
  simp [hv10]

lemma and_one_testBit (v : Nat) (h : v < 16) : (v &&& 1 != 0) = v.testBit 0 := by
  interval_cases v <;> decide

lemma and_two_testBit (v : Nat) (h : v < 16) : (v &&& 2 != 0) = v.testBit 1 := by
  interval_cases v <;> decide

lemma and_four_testBit (v : Nat) (h : v < 16) : (v &&& 4 != 0) = v.testBit 2 := by
  interval_cases v <;> decide

lemma and_two_eq_zero_testBit (v : Nat) (h : v < 16) : (v &&& 2 == 0) = !v.testBit 1 := by
  interval_cases v <;> decide

lemma flipbit_xor (v : Nat) (h : v < 16) : ((v ^^^ 2) &&& 2 == 0) = !(v &&& 2 == 0) := by
  interval_cases v <;> decide

lemma swapBits01_and_one (v : Nat) (h : v < 16) :
    (swapBits01 v &&& 1 != 0) = (v &&& 2 != 0) := by
  interval_cases v <;> decide

lemma swapBits01_and_two (v : Nat) (h : v < 16) :
    (swapBits01 v &&& 2 != 0) = (v &&& 1 != 0) := by
  interval_cases v <;> decide

lemma xor_two_lt (v : Nat) (h : v < 16) : v ^^^ 2 < 16 := by
  interval_cases v <;> decide

lemma swapBits01_lt (v : Nat) (h : v < 16) : swapBits01 v < 16 := by
  interval_cases v <;> decide

lemma hexVal?_hexChar {w : Nat} (hw : w < 16) : hexVal? (hexChar w) = some w := by
  interval_cases w <;> decide

/-! ## Claims -/

/-- C1: for every hexadecimal-encoded payload of exactly 54 characters the
decoder is total — it returns a status record with every field defined — and
the model is always one of the closed enumeration
AirPodsPro / AirPods3 / AirPods2 / AirPods1 / AirPodsMax / unknown, any
character at offset 7 outside the lookup table producing the unknown model. -/
theorem C1_decoder_total (raw : List Char) (date : String)
    (h54 : raw.length = 54)
    (hhex : ∀ c ∈ raw, (hexVal? c).isSome) :
    ∃ st, decode_airpods raw date = some st ∧
      (st.model = "AirPodsPro" ∨ st.model = "AirPods3" ∨ st.model = "AirPods2" ∨
        st.model = "AirPods1" ∨ st.model = "AirPodsMax" ∨ st.model = "unknown") ∧
      (∀ c7, raw[7]? = some c7 → c7 ∉ (['e', '3', 'f', '2', 'a'] : List Char) →
        st.model = "unknown") ∧
      st.status = 1 ∧ st.date = date ∧ st.raw = raw := by
  obtain ⟨c7, v7, h7, hv7⟩ := hex_at raw h54 hhex 7 (by omega)
  obtain ⟨c10, v10, h10, hv10⟩ := hex_at raw h54 hhex 10 (by omega)
  obtain ⟨c12, v12, h12, hv12⟩ := hex_at raw h54 hhex 12 (by omega)
  obtain ⟨c13, v13, h13, hv13⟩ := hex_at raw h54 hhex 13 (by omega)
  obtain ⟨c14, v14, h14, hv14⟩ := hex_at raw h54 hhex 14 (by omega)
  obtain ⟨c15, v15, h15, hv15⟩ := hex_at raw h54 hhex 15 (by omega)
  refine ⟨_, decode_airpods_eq raw date h7 h10 hv10 h12 hv12 h13 hv13 h14 hv14 h15 hv15,
    ?_, ?_, rfl, rfl, rfl⟩
  · show modelOf c7 = _ ∨ _
    unfold modelOf
    split_ifs <;> simp
  · intro c7' h7' hc7'
    rw [h7] at h7'
    injection h7' with h7'
    subst h7'
    simp only [List.mem_cons, List.not_mem_nil, or_false, not_or] at hc7'
    obtain ⟨n1, n2, n3, n4, n5⟩ := hc7'
    show modelOf c7 = _
    unfold modelOf
    rw [if_neg n1, if_neg n2, if_neg n3, if_neg n4, if_neg n5]

/-- Witness for C1 at the all-zeros 54-character payload. -/
theorem C1_decoder_total_witness :
    ∃ st, decode_airpods (List.replicate 54 '0') "2024-01-01 00:00:00" = some st ∧
      (st.model = "AirPodsPro" ∨ st.model = "AirPods3" ∨ st.model = "AirPods2" ∨
        st.model = "AirPods1" ∨ st.model = "AirPodsMax" ∨ st.model = "unknown") ∧
      (∀ c7, (List.replicate 54 '0')[7]? = some c7 →
        c7 ∉ (['e', '3', 'f', '2', 'a'] : List Char) → st.model = "unknown") ∧
      st.status = 1 ∧ st.date = "2024-01-01 00:00:00" ∧ st.raw = List.replicate 54 '0' :=
  C1_decoder_total (List.replicate 54 '0') "2024-01-01 00:00:00" (by decide) (by decide)

/-- C2: the percentage transform on a nibble value v read at one of the three
percentage offsets of a valid-length payload: 100 when v is 10, v*10+5 when
v is at most 10 (the guards read in order, so 0 gives 5 and 9 gives 95), and
the sentinel -1 for v from 11 to 15. -/
theorem C2_pct_transform (raw : List Char) (idx : Nat) (c : Char) (v : Nat)
    (hidx : idx = 12 ∨ idx = 13 ∨ idx = 15) (h54 : raw.length = 54)
    (hc : raw[idx]? = some c) (hv : hexVal? c = some v) :
    (v = 10 → pct_at raw idx = some 100) ∧
    (v ≠ 10 → v ≤ 10 → pct_at raw idx = some ((v : Int) * 10 + 5)) ∧
    (11 ≤ v → v ≤ 15 → pct_at raw idx = some (-1)) := by
  have hp : pct_at raw idx = some (pctFun v) := by
    unfold pct_at
    rw [hc]
    simp [hv]
  refine ⟨?_, ?_, ?_⟩
  · intro h10
    rw [hp]
    simp [pctFun, h10]
  · intro hne hle
    rw [hp]
    simp [pctFun, hne, hle]
  · intro h11 _
    rw [hp]
    unfold pctFun
    rw [if_neg (by omega), if_neg (by omega)]

/-- Witness for C2: nibble 7 at offset 12 of an all-sevens payload. -/
theorem C2_pct_transform_witness :
    ((7 : Nat) = 10 → pct_at (List.replicate 54 '7') 12 = some 100) ∧
    ((7 : Nat) ≠ 10 → 7 ≤ 10 → pct_at (List.replicate 54 '7') 12 = some ((7 : Int) * 10 + 5)) ∧
    (11 ≤ 7 → 7 ≤ 15 → pct_at (List.replicate 54 '7') 12 = some (-1)) :=
  C2_pct_transform (List.replicate 54 '7') 12 '7' 7 (Or.inl rfl) (by decide)
    (by decide) (by decide)

/-- C3: for every valid-length payload the flip bit is true exactly when bit 1
of the hex digit at offset 10 is zero; when flipped the left and right
percentage offsets 12 and 13 swap while the case offset 15 stays fixed; and
the charging flags come from the single nibble at offset 14, bit 0 and bit 1
giving left/right charging with their assignment swapping with flip, and bit 2
giving case charging unaffected by flip. -/
theorem C3_flip_layout (raw : List Char) (date : String)
    {c7 c10 c12 c13 c14 c15 : Char} {v10 v12 v13 v14 v15 : Nat}
    (h54 : raw.length = 54)
    (h7 : raw[7]? = some c7)
    (h10 : raw[10]? = some c10) (hv10 : hexVal? c10 = some v10)
    (h12 : raw[12]? = some c12) (hv12 : hexVal? c12 = some v12)
    (h13 : raw[13]? = some c13) (hv13 : hexVal? c13 = some v13)
    (h14 : raw[14]? = some c14) (hv14 : hexVal? c14 = some v14)
    (h15 : raw[15]? = some c15) (hv15 : hexVal? c15 = some v15) :
    ∃ st, decode_airpods raw date = some st ∧
      (is_flipped raw = some true ↔ v10.testBit 1 = false) ∧
      ∀ flip, is_flipped raw = some flip →
        st.charge_left = pctFun (if flip then v12 else v13) ∧
        st.charge_right = pctFun (if flip then v13 else v12) ∧
        st.charge_case = pctFun v15 ∧
        st.charging_left = v14.testBit (if flip then 1 else 0) ∧
        st.charging_right = v14.testBit (if flip then 0 else 1) ∧
        st.charging_case = v14.testBit 2 := by
  have hb10 := hexVal?_lt_sixteen hv10
  have hb14 := hexVal?_lt_sixteen hv14
  have hfl := is_flipped_eq raw h10 hv10
  refine ⟨_, decode_airpods_eq raw date h7 h10 hv10 h12 hv12 h13 hv13 h14 hv14 h15 hv15,
    ?_, ?_⟩
  · rw [hfl, and_two_eq_zero_testBit v10 hb10]
    cases v10.testBit 1 <;> simp
  · intro flip hflip
    rw [hfl] at hflip
    injection hflip with hflip
    subst hflip
    refine ⟨rfl, rfl, rfl, ?_, ?_, ?_⟩
    · cases hb : (v10 &&& 2 == 0)
      · exact and_one_testBit v14 hb14
      · exact and_two_testBit v14 hb14
    · cases hb : (v10 &&& 2 == 0)
      · exact and_two_testBit v14 hb14
      · exact and_one_testBit v14 hb14
    · exact and_four_testBit v14 hb14

/-- Witness for C3 at the all-zeros payload (nibble values all zero, flip
true since bit 1 of digit 0 is zero). -/
theorem C3_flip_layout_witness :
    ∃ st, decode_airpods (List.replicate 54 '0') "d" = some st ∧
      (is_flipped (List.replicate 54 '0') = some true ↔ (0 : Nat).testBit 1 = false) ∧
      ∀ flip, is_flipped (List.replicate 54 '0') = some flip →
        st.charge_left = pctFun (if flip then 0 else 0) ∧
        st.charge_right = pctFun (if flip then 0 else 0) ∧
        st.charge_case = pctFun 0 ∧
        st.charging_left = (0 : Nat).testBit (if flip then 1 else 0) ∧
        st.charging_right = (0 : Nat).testBit (if flip then 0 else 1) ∧
        st.charging_case = (0 : Nat).testBit 2 :=
  @C3_flip_layout (List.replicate 54 '0') "d" '0' '0' '0' '0' '0' '0' 0 0 0 0 0
    (by decide) (by decide) (by decide) (by decide) (by decide) (by decide)
    (by decide) (by decide) (by decide) (by decide) (by decide) (by decide)

/-- C4: for every valid-length payload, decoding it and decoding the payload
obtained by toggling the flip bit (bit 1 of the digit at offset 10), swapping
the characters at the two left/right percentage offsets, and swapping bits 0
and 1 of the charging nibble, yield identical left and right percentages and
identical left and right charging flags. -/
theorem C4_flip_symmetry (raw : List Char) (date : String)
    {c7 c10 c12 c13 c14 c15 : Char} {v10 v12 v13 v14 v15 : Nat}
    (h54 : raw.length = 54)
    (h7 : raw[7]? = some c7)
    (h10 : raw[10]? = some c10) (hv10 : hexVal? c10 = some v10)
    (h12 : raw[12]? = some c12) (hv12 : hexVal? c12 = some v12)
    (h13 : raw[13]? = some c13) (hv13 : hexVal? c13 = some v13)
    (h14 : raw[14]? = some c14) (hv14 : hexVal? c14 = some v14)
    (h15 : raw[15]? = some c15) (hv15 : hexVal? c15 = some v15) :
    ∃ st st', decode_airpods raw date = some st ∧
      decode_airpods (toggleSwapPayload raw) date = some st' ∧
      st'.charge_left = st.charge_left ∧
      st'.charge_right = st.charge_right ∧
      st'.charging_left = st.charging_left ∧
      st'.charging_right = st.charging_right := by
  have hb10 := hexVal?_lt_sixteen hv10
  have hb14 := hexVal?_lt_sixteen hv14
  have hT : toggleSwapPayload raw =
      (((raw.set 10 (hexChar (v10 ^^^ 2))).set 12 c13).set 13 c12).set 14
        (hexChar (swapBits01 v14)) := by
    unfold toggleSwapPayload
    rw [h10, h12, h13, h14]
    simp [hv10, hv14]
  rw [hT]
  set L := (((raw.set 10 (hexChar (v10 ^^^ 2))).set 12 c13).set 13 c12).set 14
      (hexChar (swapBits01 v14)) with hL
  have h7' : L[7]? = some c7 := by
    rw [hL, List.getElem?_set_ne (by decide), List.getElem?_set_ne (by decide),
        List.getElem?_set_ne (by decide), List.getElem?_set_ne (by decide)]
    exact h7
  have h10' : L[10]? = some (hexChar (v10 ^^^ 2)) := by
    rw [hL, List.getElem?_set_ne (by decide), List.getElem?_set_ne (by decide),
        List.getElem?_set_ne (by decide), List.getElem?_set_self (by omega)]
  have h12' : L[12]? = some c13 := by
    rw [hL, List.getElem?_set_ne (by decide), List.getElem?_set_ne (by decide),
        List.getElem?_set_self (by simp; omega)]
  have h13' : L[13]? = some c12 := by
    rw [hL, List.getElem?_set_ne (by decide), List.getElem?_set_self (by simp; omega)]
  have h14' : L[14]? = some (hexChar (swapBits01 v14)) := by
    rw [hL, List.getElem?_set_self (by simp; omega)]
  have h15' : L[15]? = some c15 := by
    rw [hL, List.getElem?_set_ne (by decide), List.getElem?_set_ne (by decide),
        List.getElem?_set_ne (by decide), List.getElem?_set_ne (by decide)]
    exact h15
  have hst := decode_airpods_eq raw date h7 h10 hv10 h12 hv12 h13 hv13 h14 hv14 h15 hv15
  have hst' := decode_airpods_eq L date h7' h10' (hexVal?_hexChar (xor_two_lt v10 hb10))
    h12' hv13 h13' hv12 h14' (hexVal?_hexChar (swapBits01_lt v14 hb14)) h15' hv15
  refine ⟨_, _, hst, hst', ?_, ?_, ?_, ?_⟩
  · show pctFun (if ((v10 ^^^ 2) &&& 2 == 0) then v13 else v12) =
      pctFun (if (v10 &&& 2 == 0) then v12 else v13)
    rw [flipbit_xor v10 hb10]
    cases v10 &&& 2 == 0 <;> rfl
  · show pctFun (if ((v10 ^^^ 2) &&& 2 == 0) then v12 else v13) =
      pctFun (if (v10 &&& 2 == 0) then v13 else v12)
    rw [flipbit_xor v10 hb10]
    cases v10 &&& 2 == 0 <;> rfl
  · show (swapBits01 v14 &&& (if ((v10 ^^^ 2) &&& 2 == 0) then 2 else 1) != 0) =
      (v14 &&& (if (v10 &&& 2 == 0) then 2 else 1) != 0)
    rw [flipbit_xor v10 hb10]
    cases v10 &&& 2 == 0
    · exact swapBits01_and_two v14 hb14
    · exact swapBits01_and_one v14 hb14
  · show (swapBits01 v14 &&& (if ((v10 ^^^ 2) &&& 2 == 0) then 1 else 2) != 0) =
      (v14 &&& (if (v10 &&& 2 == 0) then 1 else 2) != 0)
    rw [flipbit_xor v10 hb10]
    cases v10 &&& 2 == 0
    · exact swapBits01_and_one v14 hb14
    · exact swapBits01_and_two v14 hb14

/-- Witness for C4 at the all-ones 54-character payload. -/
theorem C4_flip_symmetry_witness :
    ∃ st st', decode_airpods (List.replicate 54 '1') "d" = some st ∧
      decode_airpods (toggleSwapPayload (List.replicate 54 '1')) "d" = some st' ∧
      st'.charge_left = st.charge_left ∧
      st'.charge_right = st.charge_right ∧
      st'.charging_left = st.charging_left ∧
      st'.charging_right = st.charging_right :=
  @C4_flip_symmetry (List.replicate 54 '1') "d" '1' '1' '1' '1' '1' '1' 1 1 1 1 1
    (by decide) (by decide) (by decide) (by decide) (by decide) (by decide)
    (by decide) (by decide) (by decide) (by decide) (by decide) (by decide)

/-- C5 counterexample: two fresh entries, A with RSSI 0 and B with RSSI -50.
The numerically greatest present RSSI belongs to A, both entries are well
inside the horizon, yet the query returns B: Python `rssi or -999` treats the
present RSSI 0 as falsy and replaces it by the sentinel, so the claim as
stated — only an absent RSSI is treated as the sentinel — is false. -/
theorem C5_pick_strongest_cex :
    (pick_strongest 0 [⟨0, ⟨"A", some 0⟩, none, "a"⟩,
        ⟨0, ⟨"B", some (-50)⟩, none, "b"⟩]).2 =
      some ⟨0, ⟨"B", some (-50)⟩, none, "b"⟩ ∧
    (pick_strongest 0 [⟨0, ⟨"A", some 0⟩, none, "a"⟩,
        ⟨0, ⟨"B", some (-50)⟩, none, "b"⟩]).2 ≠
      some ⟨0, ⟨"A", some 0⟩, none, "a"⟩ ∧
    ((0 : Int) > -50) ∧
    ((0 : Int) - (0 : Int) ≤ RECENT_BEACONS_MAX_T_NS) := by
  refine ⟨rfl, by decide, by decide, by decide⟩

/-- C5 (amended): the strongest-observation query first evicts every entry
whose age strictly exceeds the 10-second horizon, then returns, among the
remaining entries, the first entry attaining the numerically greatest
comparison key, where the key of an entry is its RSSI unless the RSSI is
absent or equal to 0 (both falsy under Python `or`), in which case it is the
sentinel -999; on exact key ties the earliest-inserted entry wins, and an
empty window yields none rather than an error. -/
theorem C5_pick_strongest_spec (now : Int) (recent : List Entry) :
    ((pick_strongest now recent).1 = recent.filter (survives now)) ∧
    ((pick_strongest now recent).2 = none ↔ recent.filter (survives now) = []) ∧
    (∀ e ∈ recent, (e ∈ recent.filter (survives now) ↔
        now - e.time ≤ RECENT_BEACONS_MAX_T_NS)) ∧
    (∀ m, (pick_strongest now recent).2 = some m →
      (∀ e ∈ recent.filter (survives now), keyOf e ≤ keyOf m) ∧
      ∃ l1 l2, recent.filter (survives now) = l1 ++ m :: l2 ∧
        ∀ e ∈ l1, keyOf e < keyOf m) := by
  have h2 : (pick_strongest now recent).2 =
      (recent.filter (survives now)).foldl better none :=
    scanLoop_snd now recent none
  obtain ⟨hnone, hsome⟩ := foldl_better_none_spec (recent.filter (survives now))
  refine ⟨scanLoop_fst now recent none, ?_, ?_, ?_⟩
  · rw [h2]
    exact hnone
  · intro e he
    simp [List.mem_filter, he, survives, not_lt]
  · intro m hm
    rw [h2] at hm
    exact hsome m hm

/-- Witness for C5 at a concrete window: the zero-RSSI entry loses to the
-50 entry, which the characterization exhibits as the first key-maximal
survivor. -/
theorem C5_pick_strongest_spec_witness :
    ((pick_strongest 0 [⟨0, ⟨"A", some 0⟩, none, "a"⟩,
        ⟨0, ⟨"B", some (-50)⟩, none, "b"⟩]).1 =
      [⟨0, ⟨"A", some 0⟩, none, "a"⟩, ⟨0, ⟨"B", some (-50)⟩, none, "b"⟩].filter
        (survives 0)) ∧
    ((pick_strongest 0 [⟨0, ⟨"A", some 0⟩, none, "a"⟩,
        ⟨0, ⟨"B", some (-50)⟩, none, "b"⟩]).2 = none ↔
      [⟨0, ⟨"A", some 0⟩, none, "a"⟩, ⟨0, ⟨"B", some (-50)⟩, none, "b"⟩].filter
        (survives 0) = []) ∧
    (∀ e ∈ [⟨0, ⟨"A", some 0⟩, none, "a"⟩, ⟨0, ⟨"B", some (-50)⟩, none, "b"⟩],
      (e ∈ [⟨0, ⟨"A", some 0⟩, none, "a"⟩, ⟨0, ⟨"B", some (-50)⟩, none, "b"⟩].filter
          (survives 0) ↔ (0 : Int) - e.time ≤ RECENT_BEACONS_MAX_T_NS)) ∧
    (∀ m, (pick_strongest 0 [⟨0, ⟨"A", some 0⟩, none, "a"⟩,
        ⟨0, ⟨"B", some (-50)⟩, none, "b"⟩]).2 = some m →
      (∀ e ∈ [⟨0, ⟨"A", some 0⟩, none, "a"⟩,
          ⟨0, ⟨"B", some (-50)⟩, none, "b"⟩].filter (survives 0), keyOf e ≤ keyOf m) ∧
      ∃ l1 l2, [⟨0, ⟨"A", some 0⟩, none, "a"⟩,
          ⟨0, ⟨"B", some (-50)⟩, none, "b"⟩].filter (survives 0) = l1 ++ m :: l2 ∧
        ∀ e ∈ l1, keyOf e < keyOf m) :=
  C5_pick_strongest_spec 0
    [⟨0, ⟨"A", some 0⟩, none, "a"⟩, ⟨0, ⟨"B", some (-50)⟩, none, "b"⟩]

/-- C10: keep_best appends exactly one entry stamped with the append-time
timestamp and never mutates any stored entry: the stored list is exactly the
age-filtered appended list (so the eviction time of every stored entry
depends only on its original insertion timestamp), every stored entry is an
unchanged member of the old window or the new entry itself, and the
refresh-to-now applies only to the returned value, which is produced
whenever the strongest surviving entry carries the same device address as
the just-inserted device — even when that strongest entry is an older
distinct entry. -/
lemma keep_best_eq (d : Device) (mfg : Option (List Char)) (nm : String)
    (tA tN : Int) (recent : List Entry) :
    keep_best d mfg nm tA tN recent =
      ((scanLoop tN (recent ++ [(⟨tA, d, mfg, nm⟩ : Entry)]) none).1,
        refreshReturn d mfg nm tN
          (scanLoop tN (recent ++ [(⟨tA, d, mfg, nm⟩ : Entry)]) none).2) := by
  unfold keep_best refreshReturn
  rcases scanLoop tN (recent ++ [(⟨tA, d, mfg, nm⟩ : Entry)]) none with ⟨l, os⟩
  cases os with
  | none => rfl
  | some s =>
    by_cases haddr : s.device.address = d.address
    · simp [haddr]
    · simp [haddr]

theorem C10_keep_best_frame (d : Device) (mfg : Option (List Char)) (nm : String)
    (tA tN : Int) (recent : List Entry) :
    ((keep_best d mfg nm tA tN recent).1 =
      (recent ++ [(⟨tA, d, mfg, nm⟩ : Entry)]).filter (survives tN)) ∧
    (∀ e ∈ (keep_best d mfg nm tA tN recent).1,
      e ∈ recent ∨ e = (⟨tA, d, mfg, nm⟩ : Entry)) ∧
    ((keep_best d mfg nm tA tN recent).2 =
      refreshReturn d mfg nm tN
        (pick_strongest tN (recent ++ [(⟨tA, d, mfg, nm⟩ : Entry)])).2) := by
  have hk := keep_best_eq d mfg nm tA tN recent
  have hk1 : (keep_best d mfg nm tA tN recent).1 =
      (scanLoop tN (recent ++ [(⟨tA, d, mfg, nm⟩ : Entry)]) none).1 := by
    rw [hk]
  have hk2 : (keep_best d mfg nm tA tN recent).2 =
      refreshReturn d mfg nm tN
        (scanLoop tN (recent ++ [(⟨tA, d, mfg, nm⟩ : Entry)]) none).2 := by
    rw [hk]
  have hfst := scanLoop_fst tN (recent ++ [(⟨tA, d, mfg, nm⟩ : Entry)]) none
  refine ⟨hk1.trans hfst, ?_, hk2⟩
  intro e he
  rw [hk1, hfst] at he
  rcases List.mem_append.mp (List.mem_filter.mp he).1 with h | h
  · exact Or.inl h
  · exact Or.inr (by simpa using h)

/-- Witness for C10: a concrete insert where the strongest survivor is an
older distinct entry with the same address, so the returned value is the
refreshed record while the stored list keeps the original timestamps. -/
theorem C10_keep_best_frame_witness :
    ((keep_best ⟨"A", some (-40)⟩ none "new" 5 7
        [(⟨0, ⟨"A", some (-30)⟩, none, "old"⟩ : Entry)]).1 =
      ([(⟨0, ⟨"A", some (-30)⟩, none, "old"⟩ : Entry)] ++
        [(⟨5, ⟨"A", some (-40)⟩, none, "new"⟩ : Entry)]).filter (survives 7)) ∧
    (∀ e ∈ (keep_best ⟨"A", some (-40)⟩ none "new" 5 7
        [(⟨0, ⟨"A", some (-30)⟩, none, "old"⟩ : Entry)]).1,
      e ∈ [(⟨0, ⟨"A", some (-30)⟩, none, "old"⟩ : Entry)] ∨
        e = (⟨5, ⟨"A", some (-40)⟩, none, "new"⟩ : Entry)) ∧
    ((keep_best ⟨"A", some (-40)⟩ none "new" 5 7
        [(⟨0, ⟨"A", some (-30)⟩, none, "old"⟩ : Entry)]).2 =
      refreshReturn ⟨"A", some (-40)⟩ none "new" 7
        (pick_strongest 7 ([(⟨0, ⟨"A", some (-30)⟩, none, "old"⟩ : Entry)] ++
          [(⟨5, ⟨"A", some (-40)⟩, none, "new"⟩ : Entry)])).2) :=
  C10_keep_best_frame ⟨"A", some (-40)⟩ none "new" 5 7
    [(⟨0, ⟨"A", some (-30)⟩, none, "old"⟩ : Entry)]

/-- C6: each tick emits exactly one of three outputs: the not-found object
with model "AirPods not found" when the window yields no observation; a
degraded status-0 object — its model string depending on whether a name was
captured, its note "Manufacturer frame present but unsupported length" when
a payload of the wrong length is present and "Matched by name only" when the
payload is absent — and the decoder's full status-1 result when the payload
has the expected length (54 hex characters, as every `hexlify`-produced
payload is). -/
theorem C6_tick_output (strongest : Option Entry) (date : String) :
    (strongest = none →
      tick_payload strongest date = some (.notFound "AirPods not found")) ∧
    (∀ s, strongest = some s →
      (s.mfg_hex = none →
        tick_payload strongest date = some (.degraded
          (if s.name ≠ "" then "AirPods detected" else "Apple device detected")
          "Matched by name only" s.device.rssi s.name date)) ∧
      (∀ raw, s.mfg_hex = some raw → raw.length ≠ AIRPODS_DATA_HEX_LEN →
        tick_payload strongest date = some (.degraded
          (if s.name ≠ "" then "AirPods detected" else "Apple device detected")
          "Manufacturer frame present but unsupported length"
          s.device.rssi s.name date)) ∧
      (∀ raw, s.mfg_hex = some raw → raw.length = AIRPODS_DATA_HEX_LEN →
        (∀ c ∈ raw, (hexVal? c).isSome) →
        ∃ st, decode_airpods raw date = some st ∧ st.status = 1 ∧
          tick_payload strongest date = some (.full st))) := by
  refine ⟨?_, ?_⟩
  · intro h
    subst h
    rfl
  · intro s hs
    subst hs
    refine ⟨?_, ?_, ?_⟩
    · intro hm
      simp [tick_payload, hm]
    · intro raw hm hlen
      simp [tick_payload, hm, hlen]
    · intro raw hm hlen hhex
      obtain ⟨c7, v7, h7, hv7⟩ := hex_at raw hlen hhex 7 (by omega)
      obtain ⟨c10, v10, h10, hv10⟩ := hex_at raw hlen hhex 10 (by omega)
      obtain ⟨c12, v12, h12, hv12⟩ := hex_at raw hlen hhex 12 (by omega)
      obtain ⟨c13, v13, h13, hv13⟩ := hex_at raw hlen hhex 13 (by omega)
      obtain ⟨c14, v14, h14, hv14⟩ := hex_at raw hlen hhex 14 (by omega)
      obtain ⟨c15, v15, h15, hv15⟩ := hex_at raw hlen hhex 15 (by omega)
      have hdec := decode_airpods_eq raw date h7 h10 hv10 h12 hv12 h13 hv13
        h14 hv14 h15 hv15
      refine ⟨_, hdec, rfl, ?_⟩
      simp [tick_payload, hm, hlen, hdec]

/-- Witness for C6 at a concrete strongest entry carrying a 2-character
payload (wrong length, degraded branch applies). -/
theorem C6_tick_output_witness :
    ((some (⟨0, ⟨"X", some (-60)⟩, some ['a', 'b'], "AirPods"⟩ : Entry) = none →
      tick_payload (some ⟨0, ⟨"X", some (-60)⟩, some ['a', 'b'], "AirPods"⟩) "d" =
        some (.notFound "AirPods not found")) ∧
    (∀ s, (some (⟨0, ⟨"X", some (-60)⟩, some ['a', 'b'], "AirPods"⟩ : Entry)) = some s →
      (s.mfg_hex = none →
        tick_payload (some ⟨0, ⟨"X", some (-60)⟩, some ['a', 'b'], "AirPods"⟩) "d" =
          some (.degraded
            (if s.name ≠ "" then "AirPods detected" else "Apple device detected")
            "Matched by name only" s.device.rssi s.name "d")) ∧
      (∀ raw, s.mfg_hex = some raw → raw.length ≠ AIRPODS_DATA_HEX_LEN →
        tick_payload (some ⟨0, ⟨"X", some (-60)⟩, some ['a', 'b'], "AirPods"⟩) "d" =
          some (.degraded
            (if s.name ≠ "" then "AirPods detected" else "Apple device detected")
            "Manufacturer frame present but unsupported length"
            s.device.rssi s.name "d")) ∧
      (∀ raw, s.mfg_hex = some raw → raw.length = AIRPODS_DATA_HEX_LEN →
        (∀ c ∈ raw, (hexVal? c).isSome) →
        ∃ st, decode_airpods raw "d" = some st ∧ st.status = 1 ∧
          tick_payload (some ⟨0, ⟨"X", some (-60)⟩, some ['a', 'b'], "AirPods"⟩) "d" =
            some (.full st)))) :=
  C6_tick_output (some ⟨0, ⟨"X", some (-60)⟩, some ['a', 'b'], "AirPods"⟩) "d"

lemma startGo_congr (res res' : Nat → StartResult) (u : Bool) (a fuel : Nat)
    (h : ∀ i, a ≤ i → i < a + fuel → res i = res' i) :
    startGo res u a fuel = startGo res' u a fuel := by
  induction fuel generalizing u a with
  | zero => rfl
  | succ r ih =>
    have ha : res a = res' a := h a (le_refl a) (by omega)
    simp only [startGo]
    rw [ha]
    cases res' a with
    | ok => rfl
    | fatal => rfl
    | inProgress => exact ih _ _ (fun i h1 h2 => h i (by omega) (by omega))

/-- C7: when the scan start request fails with the "in progress" condition on
all six attempts, the controller finishes the start phase in polling mode;
the start phase never consults any attempt beyond the first six (no further
start attempts for the rest of the run); a start failure with any other
condition — after any number of in-progress failures — propagates as a fatal
error; and a polling-mode tick performs the one-shot discovery sweep,
feeding its events through the filter into the window, before reading the
window, while a non-polling tick reads the window as it is. -/
theorem C7_polling_fallback :
    (∀ res : Nat → StartResult, (∀ i, i < 6 → res i = .inProgress) →
      startPhase res = some true) ∧
    (∀ res res' : Nat → StartResult, (∀ i, i < 6 → res i = res' i) →
      startPhase res = startPhase res') ∧
    (∀ res : Nat → StartResult, ∀ k, k < 6 →
      (∀ i, i < k → res i = .inProgress) → res k = .fatal →
      startPhase res = none) ∧
    (∀ minRssi hints evs recent now date,
      tick_step minRssi hints true (.events evs) recent now date =
        emit_step (sweep_filtered minRssi hints evs now recent) now date) ∧
    (∀ minRssi hints sweep recent now date,
      tick_step minRssi hints false sweep recent now date =
        emit_step recent now date) := by
  refine ⟨?_, ?_, ?_, ?_, ?_⟩
  · intro res h
    have h0 := h 0 (by omega)
    have h1 := h 1 (by omega)
    have h2 := h 2 (by omega)
    have h3 := h 3 (by omega)
    have h4 := h 4 (by omega)
    have h5 := h 5 (by omega)
    simp [startPhase, startGo, h0, h1, h2, h3, h4, h5]
  · intro res res' h
    exact startGo_congr res res' false 0 6 (fun i _ h2 => h i (by omega))
  · intro res k hk hpre hfatal
    interval_cases k
    · simp [startPhase, startGo, hfatal]
    · simp [startPhase, startGo, hpre 0 (by omega), hfatal]
    · simp [startPhase, startGo, hpre 0 (by omega), hpre 1 (by omega), hfatal]
    · simp [startPhase, startGo, hpre 0 (by omega), hpre 1 (by omega),
        hpre 2 (by omega), hfatal]
    · simp [startPhase, startGo, hpre 0 (by omega), hpre 1 (by omega),
        hpre 2 (by omega), hpre 3 (by omega), hfatal]
    · simp [startPhase, startGo, hpre 0 (by omega), hpre 1 (by omega),
        hpre 2 (by omega), hpre 3 (by omega), hpre 4 (by omega), hfatal]
  · intro minRssi hints evs recent now date
    rfl
  · intro minRssi hints sweep recent now date
    rfl

/-- Witness for C7 at concrete outcome sequences: all-in-progress enters
polling, an agreeing pair of sequences gives the same outcome, and a fatal
first attempt aborts. -/
theorem C7_polling_fallback_witness :
    startPhase (fun _ => .inProgress) = some true ∧
    startPhase (fun _ => .fatal) = none ∧
    tick_step (-90) [] true (.events []) [] 0 "d" = emit_step [] 0 "d" :=
  ⟨C7_polling_fallback.1 (fun _ => .inProgress) (fun _ _ => rfl),
   C7_polling_fallback.2.2.1 (fun _ => .fatal) 0 (by omega)
     (fun i hi => absurd hi (by omega)) rfl,
   C7_polling_fallback.2.2.2.1 (-90) [] [] [] 0 "d"⟩

/-- C8 counterexample: a polling tick whose discovery sweep reports
"operation in progress" does NOT skip emission: with an empty window it still
emits the not-found status line, so the claim that no status line is
produced for that tick is false.  (Only the discovery feed itself is
skipped; `run_async` falls through to `pick_strongest` and the emit.) -/
theorem C8_inprogress_cex :
    tick_step (-90) [] true .inProgress [] 0 "d" =
      some ([], .notFound "AirPods not found") ∧
    tick_step (-90) [] true .inProgress [] 0 "d" ≠ none := by
  refine ⟨rfl, ?_⟩
  intro h
  cases h

/-- C8 (amended): in polling mode, a tick whose one-shot discovery sweep
reports "operation in progress" waits the fixed backoff and skips only the
discovery feed, without changing state: no new observations are inserted,
and the tick then proceeds exactly like a tick without a sweep — it reads
the window and emits a status line as usual. -/
theorem C8_inprogress_skip (minRssi : Int) (hints : List String)
    (recent : List Entry) (now : Int) (date : String) :
    tick_step minRssi hints true .inProgress recent now date =
      emit_step recent now date ∧
    tick_step minRssi hints true .inProgress recent now date =
      tick_step minRssi hints false .inProgress recent now date ∧
    (recent = [] →
      tick_step minRssi hints true .inProgress recent now date =
        some ([], .notFound "AirPods not found")) := by
  refine ⟨rfl, rfl, ?_⟩
  intro h
  subst h
  rfl

/-- Witness for C8 at a concrete polling tick with an in-progress sweep. -/
theorem C8_inprogress_skip_witness :
    tick_step (-90) ["AirPods"] true .inProgress [] 5 "d" =
      emit_step [] 5 "d" ∧
    tick_step (-90) ["AirPods"] true .inProgress [] 5 "d" =
      tick_step (-90) ["AirPods"] false .inProgress [] 5 "d" ∧
    (([] : List Entry) = [] →
      tick_step (-90) ["AirPods"] true .inProgress [] 5 "d" =
        some ([], .notFound "AirPods not found")) :=
  C8_inprogress_skip (-90) ["AirPods"] [] 5 "d"

/-- C9 counterexample: with a configured hint list containing the empty
string and an event with no manufacturer data, no advertised name and RSSI 0
(present and above the -90 threshold), the advertised name "" does contain
the hint "" as a substring, so the claim says the filter produces an
observation — but `on_adv` guards the name check with Python truthiness
(`if name else False`), so the empty name never matches and the event is
dropped. -/
theorem C9_filter_cex :
    on_adv (-90) [""] ⟨"X", none, none, some 0, []⟩ = none ∧
    containsSub (toLowerStr (resolvedName ⟨"X", none, none, some 0, []⟩))
      (toLowerStr "") = true ∧
    ((-90 : Int) ≤ 0) ∧
    (lookupMfg AIRPODS_MANUFACTURER
      (AdvEvent.mk "X" none none (some 0) []).mfg) = none := by
  refine ⟨rfl, rfl, by decide, rfl⟩

/-- C9 (amended): the filter produces an observation exactly when (the
manufacturer-data mapping contains the target vendor ID, or the advertised
name is nonempty and case-insensitively contains at least one configured
name hint) and the RSSI is present and at least the configured minimum
threshold; when the vendor ID is present the observation's payload is the
hex-encoding of that vendor's bytes and on a name-only match the payload is
absent; an event failing the RSSI requirement is rejected regardless of name
or manufacturer match. -/
lemma on_adv_eq (minRssi : Int) (hints : List String) (ev : AdvEvent) :
    on_adv minRssi hints ev =
      if ((lookupMfg AIRPODS_MANUFACTURER ev.mfg).isSome = true ∨
          (resolvedName ev ≠ "" ∧ (hints.any fun h =>
            containsSub (toLowerStr (resolvedName ev)) (toLowerStr h)) = true)) then
        (match ev.rssi with
         | none => none
         | some r =>
           if r < minRssi then none
           else some (⟨ev.address, ev.rssi⟩,
             (lookupMfg AIRPODS_MANUFACTURER ev.mfg).map hexlify, resolvedName ev))
      else none := by
  unfold on_adv
  by_cases hA : (lookupMfg AIRPODS_MANUFACTURER ev.mfg).isSome = true <;>
  by_cases hn : resolvedName ev = "" <;>
  by_cases hany : (hints.any fun h =>
      containsSub (toLowerStr (resolvedName ev)) (toLowerStr h)) = true <;>
  simp [hA, hn, hany]

theorem C9_filter_spec (minRssi : Int) (hints : List String) (ev : AdvEvent) :
    ((on_adv minRssi hints ev).isSome ↔
      (((lookupMfg AIRPODS_MANUFACTURER ev.mfg).isSome = true ∨
        (resolvedName ev ≠ "" ∧ (hints.any fun h =>
          containsSub (toLowerStr (resolvedName ev)) (toLowerStr h)) = true)) ∧
       ∃ r, ev.rssi = some r ∧ minRssi ≤ r)) ∧
    (∀ d mfg nm, on_adv minRssi hints ev = some (d, mfg, nm) →
      d = ⟨ev.address, ev.rssi⟩ ∧
      mfg = (lookupMfg AIRPODS_MANUFACTURER ev.mfg).map hexlify ∧
      nm = resolvedName ev) := by
  rw [on_adv_eq]
  constructor
  · by_cases hq : ((lookupMfg AIRPODS_MANUFACTURER ev.mfg).isSome = true ∨
        (resolvedName ev ≠ "" ∧ (hints.any fun h =>
          containsSub (toLowerStr (resolvedName ev)) (toLowerStr h)) = true))
    · rw [if_pos hq]
      cases hr : ev.rssi with
      | none => simp [hq]
      | some r =>
        by_cases hlt : r < minRssi
        · simp [hq, hlt, not_le.mpr hlt]
        · simp [hlt, not_lt.mp hlt]
          simpa using hq
    · rw [if_neg hq]
      constructor
      · intro hs
        simp at hs
      · rintro ⟨hq', -⟩
        exact absurd hq' hq
  · intro d mfg nm h
    split_ifs at h with hq
    cases hr : ev.rssi with
    | none =>
      rw [hr] at h
      cases h
    | some r =>
      rw [hr] at h
      simp only [] at h
      split_ifs at h with hlt
      cases h
      exact ⟨rfl, rfl, rfl⟩

/-- Witness for C9 at a concrete qualifying event matched by name only. -/
theorem C9_filter_spec_witness :
    ((on_adv (-90) ["AirPods"] ⟨"X", some "Foo AirPods Bar", none, some (-50), []⟩).isSome ↔
      (((lookupMfg AIRPODS_MANUFACTURER
          (AdvEvent.mk "X" (some "Foo AirPods Bar") none (some (-50)) []).mfg).isSome = true ∨
        (resolvedName ⟨"X", some "Foo AirPods Bar", none, some (-50), []⟩ ≠ "" ∧
          (["AirPods"].any fun h =>
            containsSub (toLowerStr (resolvedName
              ⟨"X", some "Foo AirPods Bar", none, some (-50), []⟩)) (toLowerStr h)) = true)) ∧
       ∃ r, (AdvEvent.mk "X" (some "Foo AirPods Bar") none (some (-50)) []).rssi = some r ∧
         (-90 : Int) ≤ r)) ∧
    (∀ d mfg nm, on_adv (-90) ["AirPods"]
        ⟨"X", some "Foo AirPods Bar", none, some (-50), []⟩ = some (d, mfg, nm) →
      d = ⟨(AdvEvent.mk "X" (some "Foo AirPods Bar") none (some (-50)) []).address,
        (AdvEvent.mk "X" (some "Foo AirPods Bar") none (some (-50)) []).rssi⟩ ∧
      mfg = (lookupMfg AIRPODS_MANUFACTURER
        (AdvEvent.mk "X" (some "Foo AirPods Bar") none (some (-50)) []).mfg).map hexlify ∧
      nm = resolvedName ⟨"X", some "Foo AirPods Bar", none, some (-50), []⟩) :=
  C9_filter_spec (-90) ["AirPods"] ⟨"X", some "Foo AirPods Bar", none, some (-50), []⟩

end AirStatus
